import Mathlib

/-!
Shallow embedding of the PPM backend session field-collection state machine
(src/backend/app/models.py, src/backend/app/services/ollama_service.py, and
the vector-store client class WeaviateVectorDB in src/backend/ollama_weaviate.py
whose interface the service calls; the HTTP router is src/backend/app/routers/chat.py).

External collaborators (the language model reached through instructor, the
Weaviate vector index, the clock) are modelled as per-turn oracles: the
extraction call and the responder call are `Except`-valued inputs, the
embedding distance of the vector index is a function-valued input, and time
is an explicit `Nat` parameter.  Python `Optional[str]` truthiness (None and
the empty string are falsy) is modelled by `truthy`.
-/

namespace PPM

/-- Python truthiness of an `Optional[str]` value: `None` and `""` are falsy. -/
def truthy : Option String → Bool
  | none => false
  | some s => !(s == "")

/-- models.py `CollectedInfo`: the four required fields, each `Optional[str]`
defaulting to `None`. -/
structure CollectedInfo where
  u1 : Option String := none
  c1 : Option String := none
  u2 : Option String := none
  c2 : Option String := none
deriving DecidableEq, Repr

/-- models.py `CollectedInfo.is_complete`: `all([u1, c1, u2, c2])` under Python
truthiness. -/
def CollectedInfo.is_complete (i : CollectedInfo) : Bool :=
  truthy i.u1 && truthy i.c1 && truthy i.u2 && truthy i.c2

/-- models.py `CollectedInfo.get_next_field`: the human-readable label of the
first field in declared order u1, c1, u2, c2 that is not truthy; `None` when
all are set. -/
def CollectedInfo.get_next_field (i : CollectedInfo) : Option String :=
  if !truthy i.u1 then some "First university name"
  else if !truthy i.c1 then some "First university course"
  else if !truthy i.u2 then some "Second university name"
  else if !truthy i.c2 then some "Second university course"
  else none

/-- ollama_service.py `_extract_information` lines 137-144: the key (u1, c1,
u2, c2) of the first non-truthy field, `None` when complete. -/
def nextFieldKey (i : CollectedInfo) : Option String :=
  if !truthy i.u1 then some "u1"
  else if !truthy i.c1 then some "c1"
  else if !truthy i.u2 then some "u2"
  else if !truthy i.c2 then some "c2"
  else none

/-- Read a `CollectedInfo` attribute by its field name (getattr). -/
def getField (i : CollectedInfo) (f : String) : Option String :=
  if f = "u1" then i.u1
  else if f = "c1" then i.c1
  else if f = "u2" then i.u2
  else if f = "c2" then i.c2
  else none

/-- ollama_service.py `setattr(self.collected_info, field, value)`: the source
only ever calls it with a name in u1, c1, u2, c2 (membership-checked first). -/
def setField (i : CollectedInfo) (f v : String) : CollectedInfo :=
  if f = "u1" then { i with u1 := some v }
  else if f = "c1" then { i with c1 := some v }
  else if f = "u2" then { i with u2 := some v }
  else if f = "c2" then { i with c2 := some v }
  else i

/-- ollama_service.py `InformationUpdate`: the structured extraction result.
Confidence is a float compared only against 0.5, modelled as a rational. -/
structure InformationUpdate where
  new_university : Option String := none
  new_course : Option String := none
  field_to_update : Option String := none
  confidence : ℚ
deriving DecidableEq, Repr

/-- ollama_service.py `send_message` lines 244-257: apply the extraction to the
collected info.  Guard: `confidence > 0.5 and field_to_update` (truthiness);
then the university payload goes to u1/u2, elif the course payload to c1/c2.
No comparison against the next missing field is made. -/
def applyUpdate (i : CollectedInfo) (e : InformationUpdate) : CollectedInfo :=
  if mkRat 1 2 < e.confidence ∧ truthy e.field_to_update = true then
    let f := e.field_to_update.getD ""
    if truthy e.new_university = true ∧ (f = "u1" ∨ f = "u2") then
      setField i f (e.new_university.getD "")
    else if truthy e.new_course = true ∧ (f = "c1" ∨ f = "c2") then
      setField i f (e.new_course.getD "")
    else i
  else i

/-- ollama_service.py `_extract_information` lines 127-177 as a pure function
of the state and the external-call oracle.  Returns the `InformationUpdate`
together with whether the external extraction call was actually made.
`InformationUpdate(confidence=0.0)` leaves every other attribute `None`. -/
def extract_information (i : CollectedInfo)
    (oracle : Except String InformationUpdate) : InformationUpdate × Bool :=
  if i.is_complete = true then ({ confidence := 0 }, false)
  else
    match nextFieldKey i with
    | none => ({ confidence := 0 }, false)
    | some _ =>
      match oracle with
      | .ok u => (u, true)
      | .error _ => ({ confidence := 0 }, true)

/-- Literal prefix of the degraded reply in `_get_response_message`. -/
def degradedPrefix : String := "I\x27m having trouble responding: "

/-- ollama_service.py `_get_response_message` lines 206-226: the responder
oracle result on success, the degraded apology text on an exception. -/
def get_response_message (oracle : Except String String) : String :=
  match oracle with
  | .ok s => s
  | .error e => degradedPrefix ++ e

/-- ollama_service.py `_add_to_history` lines 115-121: append, then keep only
the last 20 entries. -/
def add_to_history (hist : List (String × String)) (role content : String) :
    List (String × String) :=
  let h := hist ++ [(role, content)]
  if 20 < h.length then h.drop (h.length - 20) else h

/-- ollama_service.py `_get_recent_history` lines 123-125:
`chat_history[-last_n:] if chat_history else []`. -/
def get_recent_history (hist : List (String × String)) (last_n : Nat) :
    List (String × String) :=
  if hist = [] then []
  else if last_n = 0 then hist
  else hist.drop (hist.length - last_n)

/-- One record of the vector index (ollama_weaviate.py collection
instructor_conversation): chat id, vectorized user text, stored assistant
text, insertion timestamp. -/
structure ExchangeRecord where
  chat_id : String
  user_input : String
  assistant_response : String
  timestamp : Nat
deriving DecidableEq, Repr

/-- ollama_weaviate.py `search_similar` line 119: the fixed maximum distance
passed to `near_text`. -/
def searchThreshold : ℚ := mkRat 3 10

/-- ollama_weaviate.py `search_similar` lines 110-136, with the Weaviate
`near_text` call modelled by its interface contract (spec section 6): return
the records whose `chat_id` matches exactly and whose embedding distance to
the query is below the threshold, ordered by ascending distance, limited.
The embedding distance is the external oracle `dist`. -/
def search_similar (dist : String → String → ℚ) (store : List ExchangeRecord)
    (chat_id query : String) (limit : Nat) : List ExchangeRecord :=
  (List.insertionSort
      (fun a b => dist query a.user_input ≤ dist query b.user_input)
      (store.filter fun r =>
        r.chat_id == chat_id && decide (dist query r.user_input < searchThreshold))).take
    limit

/-- ollama_weaviate.py `add_conversation` lines 91-108: insert one record with
the current timestamp. -/
def add_conversation (store : List ExchangeRecord)
    (chat_id user_input assistant_response : String) (now : Nat) :
    List ExchangeRecord :=
  store ++ [⟨chat_id, user_input, assistant_response, now⟩]

/-- Content of the per-session JSON file written by `save_info`
(ollama_service.py lines 309-326): chat id, creation time, save time, and the
field mapping.  The file name is determined by the chat id alone. -/
structure SavedRecord where
  chat_id : String
  created_at : Nat
  timestamp : Nat
  collected_info : CollectedInfo
deriving DecidableEq, Repr

/-- ollama_service.py `save_info`: the record written for this session now. -/
def save_info (chat_id : String) (created_at now : Nat)
    (info : CollectedInfo) : SavedRecord :=
  ⟨chat_id, created_at, now, info⟩

/-- Per-session mutable state of `StructuredOllamaChat`. -/
structure ChatState where
  chat_id : String
  created_at : Nat
  collected_info : CollectedInfo
  chat_history : List (String × String)
deriving DecidableEq, Repr

/-- The external-call results for one `send_message` turn: the instructor
extraction call, the responder call, and the embedding distance. -/
structure TurnOracle where
  extraction : Except String InformationUpdate
  responder : Except String String
  dist : String → String → ℚ

/-- The dict returned by `send_message` (ollama_service.py lines 278-283). -/
structure SendResult where
  response : String
  collected_info : CollectedInfo
  is_complete : Bool
  is_cached : Bool
deriving DecidableEq, Repr

/-- Everything one `send_message` call produces: the new session state, the
new vector store, the list of completion-file writes performed during the
call, the returned dict, and whether the extraction call was made. -/
structure TurnOutcome where
  state : ChatState
  store : List ExchangeRecord
  writes : List SavedRecord
  result : SendResult
  extractorCalled : Bool

/-- ollama_service.py `send_message` line 242: the synthetic replacement text
for an unusable input. -/
def invalidMarker : String :=
  "Invalid input by the user, ask for the next piece of information needed."

/-- ollama_service.py `send_message` lines 233-257 (the extraction block):
if the info is not complete, run extraction, replace the user message by the
invalid-input marker when both payloads are `None`, and apply the update.
Returns (message used downstream, new collected info, extractor called). -/
def extractionPhase (info : CollectedInfo)
    (oracle : Except String InformationUpdate) (user_message : String) :
    String × CollectedInfo × Bool :=
  if info.is_complete = true then (user_message, info, false)
  else
    let er := extract_information info oracle
    let msg :=
      if er.1.new_university = none ∧ er.1.new_course = none ∧
          ¬ info.is_complete = true
      then invalidMarker else user_message
    (msg, applyUpdate info er.1, er.2)

/-- ollama_service.py `send_message` lines 259-266: take the best similarity
match if any, else fall through to the responder. -/
def responseAndCached (similar : List ExchangeRecord)
    (responder : Except String String) : String × Bool :=
  match similar with
  | r :: _ => (r.assistant_response, true)
  | [] => (get_response_message responder, false)

/-- ollama_service.py `send_message` lines 228-283, as a pure transition on
(session state, vector store) driven by the turn oracle and the clock. -/
def send_message (st : ChatState) (store : List ExchangeRecord)
    (o : TurnOracle) (user_message : String) (now : Nat) : TurnOutcome :=
  let hist1 := add_to_history st.chat_history "user" user_message
  let p := extractionPhase st.collected_info o.extraction user_message
  let similar := search_similar o.dist store st.chat_id p.1 1
  let rc := responseAndCached similar o.responder
  let hist2 := add_to_history hist1 "assistant" rc.1
  let store2 := add_conversation store st.chat_id p.1 rc.1 now
  let writes :=
    if p.2.1.is_complete = true then
      [save_info st.chat_id st.created_at now p.2.1]
    else []
  { state := { st with collected_info := p.2.1, chat_history := hist2 },
    store := store2,
    writes := writes,
    result := ⟨rc.1, p.2.1, p.2.1.is_complete, rc.2⟩,
    extractorCalled := p.2.2 }

/-- ollama_service.py `get_completion_status` lines 297-307 (without the chat
id the router adds): `collected_count` counts the truthy values of the model
dump, `total_required` is the literal 4. -/
structure CompletionStatus where
  is_complete : Bool
  collected_count : Nat
  total_required : Nat
  next_field : Option String
deriving DecidableEq, Repr

/-- ollama_service.py `get_completion_status`. -/
def get_completion_status (i : CollectedInfo) : CompletionStatus :=
  { is_complete := i.is_complete,
    collected_count := [i.u1, i.c1, i.u2, i.c2].countP truthy,
    total_required := 4,
    next_field := i.get_next_field }

/-- The persisted completion files, keyed by chat id (one file per session,
path `collected_info_` followed by the chat id). -/
def FileStore := String → Option SavedRecord

/-- ollama_service.py `load_chat_session` lines 90-113: reload the persisted
collected info and creation time for this chat id if the file exists, start
fresh otherwise; the chat history is reset either way. -/
def load_chat_session (files : FileStore) (chat_id : String) (now : Nat) :
    ChatState :=
  match files chat_id with
  | some rec =>
    { chat_id := chat_id, created_at := rec.created_at,
      collected_info := rec.collected_info, chat_history := [] }
  | none =>
    { chat_id := chat_id, created_at := now,
      collected_info := {}, chat_history := [] }

/-- ollama_service.py `OllamaChatManager.get_or_create_chat` lines 349-359:
return the active session, or materialize one from the persisted file (fresh
when no file exists).  Total: no session-not-found failure path exists. -/
def get_or_create_chat (active : List (String × ChatState))
    (files : FileStore) (chat_id : String) (now : Nat) :
    ChatState × List (String × ChatState) :=
  match active.lookup chat_id with
  | some st => (st, active)
  | none =>
    let st := load_chat_session files chat_id now
    (st, (chat_id, st) :: active)

/-- ollama_service.py `close_all_chats` lines 396-404: save every complete
active session, then clear the active map. -/
def close_all_chats (active : List (String × ChatState)) (files : FileStore)
    (now : Nat) : FileStore × List (String × ChatState) :=
  (active.foldl
    (fun fs p =>
      if p.2.collected_info.is_complete = true then
        fun cid =>
          if cid = p.2.chat_id then
            some (save_info p.2.chat_id p.2.created_at now p.2.collected_info)
          else fs cid
      else fs)
    files, [])

/-- Keys of the dict returned by `StructuredOllamaChat.send_message`, in
insertion order (ollama_service.py lines 278-283). -/
def sendMessageDictKeys : List String :=
  ["response", "collected_info", "is_complete", "is_cached"]

/-- Python tuple unpacking `a, b = xs` of an iterable into two targets, as in
routers/chat.py line 52: it raises `ValueError` unless the iterable yields
exactly two items (iterating a dict yields its keys). -/
def unpackTwo (xs : List String) : Except String (String × String) :=
  match xs with
  | [a, b] => .ok (a, b)
  | _ :: _ :: _ :: _ => .error "ValueError: too many values to unpack"
  | _ => .error "ValueError: not enough values to unpack"

/-- Empty field state (a fresh `CollectedInfo()`). -/
def emptyInfo : CollectedInfo := {}

/-- A fully collected field state used in concrete witnesses. -/
def fullInfo : CollectedInfo :=
  { u1 := some "A", c1 := some "B", u2 := some "C", c2 := some "D" }

/-- A concrete complete session used in concrete witnesses. -/
def demoState : ChatState :=
  { chat_id := "chat-1", created_at := 0, collected_info := fullInfo,
    chat_history := [] }

/-- A concrete incomplete session used in concrete witnesses. -/
def emptyState : ChatState :=
  { chat_id := "chat-2", created_at := 0, collected_info := emptyInfo,
    chat_history := [] }

/-- A turn oracle where both external model calls fail and every stored
exchange is far from the query (no cache hit). -/
def demoOracle : TurnOracle :=
  { extraction := .error "down", responder := .ok "hello", dist := fun _ _ => 1 }

/- ### Helper lemmas -/

theorem add_to_history_eq (hist : List (String × String)) (role content : String) :
    add_to_history hist role content =
      (hist ++ [(role, content)]).drop ((hist.length + 1) - 20) := by
  simp only [add_to_history]
  by_cases h : 20 < (hist ++ [(role, content)]).length
  · rw [if_pos h]
    congr 1
    simp
  · rw [if_neg h]
    have h' : (hist ++ [(role, content)]).length = hist.length + 1 := by simp
    rw [h'] at h
    have h20 : hist.length + 1 - 20 = 0 := by omega
    rw [h20, List.drop_zero]

theorem add_to_history_length_le (hist : List (String × String))
    (role content : String) (hh : hist.length ≤ 20) :
    (add_to_history hist role content).length ≤ 20 := by
  rw [add_to_history_eq, List.length_drop]
  simp only [List.length_append, List.length_cons, List.length_nil]
  omega

theorem foldl_add_to_history (msgs : List (String × String)) :
    ∀ h : List (String × String), h.length ≤ 20 →
      msgs.foldl (fun acc rc => add_to_history acc rc.1 rc.2) h =
        (h ++ msgs).drop ((h ++ msgs).length - 20) := by
  induction msgs with
  | nil =>
    intro h hh
    simp only [List.foldl_nil, List.append_nil, Nat.sub_eq_zero_of_le hh,
      List.drop_zero]
  | cons m ms ih =>
    intro h hh
    obtain ⟨r, c⟩ := m
    rw [List.foldl_cons]
    dsimp only
    rw [ih _ (add_to_history_length_le h r c hh), add_to_history_eq h r c]
    have hA : (h ++ [(r, c)]) ++ ms = h ++ (r, c) :: ms := by
      rw [List.append_assoc, List.singleton_append]
    by_cases hlen : h.length + 1 ≤ 20
    · have hk : h.length + 1 - 20 = 0 := by omega
      rw [hk, List.drop_zero, hA]
    · have hk : h.length + 1 - 20 = 1 := by omega
      rw [hk,
        ← List.drop_append_of_le_length
          (by simp : (1 : Nat) ≤ (h ++ [(r, c)]).length),
        List.drop_drop, hA]
      congr 1
      simp only [List.length_append, List.length_drop, List.length_cons,
        List.length_nil]
      omega

theorem truthy_getD (x : Option String) (h : truthy x = true) :
    truthy (some (x.getD "")) = true := by
  cases x with
  | none => simp [truthy] at h
  | some s => simpa [truthy] using h

theorem getField_setField_cases (i : CollectedInfo) (f v g : String) :
    getField (setField i f v) g = getField i g ∨
      getField (setField i f v) g = some v := by
  unfold setField getField
  split_ifs <;> simp_all

theorem getField_setField_ne (i : CollectedInfo) (f v g : String)
    (hg : g ≠ f) : getField (setField i f v) g = getField i g := by
  unfold setField getField
  split_ifs <;> simp_all

theorem getField_setField_self (i : CollectedInfo) (f v : String)
    (hf : f = "u1" ∨ f = "c1" ∨ f = "u2" ∨ f = "c2") :
    getField (setField i f v) f = some v := by
  rcases hf with h | h | h | h <;> subst h <;> rfl

theorem truthy_getField_applyUpdate (i : CollectedInfo)
    (e : InformationUpdate) (f : String)
    (h : truthy (getField i f) = true) :
    truthy (getField (applyUpdate i e) f) = true := by
  simp only [applyUpdate]
  split_ifs with h1 h2 h3
  · rcases getField_setField_cases i (e.field_to_update.getD "")
        (e.new_university.getD "") f with hc | hc <;> rw [hc]
    · exact h
    · exact truthy_getD _ h2.1
  · rcases getField_setField_cases i (e.field_to_update.getD "")
        (e.new_course.getD "") f with hc | hc <;> rw [hc]
    · exact h
    · exact truthy_getD _ h3.1
  · exact h
  · exact h

theorem truthy_getField_send_message (st : ChatState)
    (store : List ExchangeRecord) (o : TurnOracle) (m : String) (now : Nat)
    (f : String) (h : truthy (getField st.collected_info f) = true) :
    truthy (getField
      (send_message st store o m now).state.collected_info f) = true := by
  simp only [send_message, extractionPhase]
  split
  · exact h
  · exact truthy_getField_applyUpdate _ _ _ h

theorem nextFieldKey_none_iff (i : CollectedInfo) :
    nextFieldKey i = none ↔ i.is_complete = true := by
  obtain ⟨u1, c1, u2, c2⟩ := i
  cases h1 : truthy u1 <;> cases h2 : truthy c1 <;> cases h3 : truthy u2 <;>
    cases h4 : truthy c2 <;>
    simp [nextFieldKey, CollectedInfo.is_complete, h1, h2, h3, h4]

theorem extract_information_ok (i : CollectedInfo) (u : InformationUpdate)
    (hc : i.is_complete = false) :
    extract_information i (.ok u) = (u, true) := by
  unfold extract_information
  rw [if_neg (by simp [hc])]
  cases hnf : nextFieldKey i with
  | none => exact absurd ((nextFieldKey_none_iff i).mp hnf) (by simp [hc])
  | some k => rfl

theorem applyUpdate_confidence_zero (i : CollectedInfo) :
    applyUpdate i { confidence := 0 } = i := by
  unfold applyUpdate
  rw [if_neg]
  rintro ⟨hlt, -⟩
  norm_num at hlt

/- ### Claim theorems -/

/-- Claim C9: after any sequence of transcript appends starting from the
empty transcript of a new session, the chat history holds at most 20 entries
and is exactly the suffix of the full append log of length `min(total, 20)`:
a sliding window evicting only the oldest entries, preserving order. -/
theorem c9_history_window (msgs : List (String × String)) :
    (msgs.foldl (fun acc rc => add_to_history acc rc.1 rc.2) []).length ≤ 20 ∧
    msgs.foldl (fun acc rc => add_to_history acc rc.1 rc.2) [] =
      msgs.drop (msgs.length - 20) := by
  have h := foldl_add_to_history msgs [] (by simp)
  rw [List.nil_append] at h
  refine ⟨?_, h⟩
  rw [h, List.length_drop]
  omega

/-- Claim C10: for every `CollectedInfo` value, the three completion
projections agree: `is_complete` holds iff `get_next_field` is `None` iff the
`collected_count` of `get_completion_status` equals its `total_required`; and
`collected_count` is at most 4. -/
theorem c10_projections_agree (i : CollectedInfo) :
    (i.is_complete = true ↔ i.get_next_field = none) ∧
    (i.is_complete = true ↔
      (get_completion_status i).collected_count =
        (get_completion_status i).total_required) ∧
    (get_completion_status i).collected_count ≤ 4 := by
  obtain ⟨u1, c1, u2, c2⟩ := i
  cases h1 : truthy u1 <;> cases h2 : truthy c1 <;> cases h3 : truthy u2 <;>
    cases h4 : truthy c2 <;>
    simp [CollectedInfo.is_complete, CollectedInfo.get_next_field,
      get_completion_status, List.countP, List.countP.go, h1, h2, h3, h4]

/-- Claim C5 (the router defect): `routers/chat.py` line 52 tuple-unpacks the
four-key dict returned by `send_message_to_chat` into two variables, which
raises `ValueError`; the request therefore ends in the except-branch (HTTP
500) and the `is_cached` flag computed by the service never reaches the
caller. -/
theorem c5_router_unpack_error :
    unpackTwo sendMessageDictKeys =
      Except.error "ValueError: too many values to unpack" := rfl

/-- Claim C2: on a session whose fields are already complete, `send_message`
leaves every field unchanged and never makes the extraction call (and the
extraction helper itself would force confidence 0 without calling out). -/
theorem c2_complete_frame (st : ChatState) (store : List ExchangeRecord)
    (o : TurnOracle) (m : String) (now : Nat)
    (h : st.collected_info.is_complete = true) :
    (send_message st store o m now).state.collected_info = st.collected_info ∧
    (send_message st store o m now).extractorCalled = false ∧
    (extract_information st.collected_info o.extraction).1.confidence = 0 ∧
    (extract_information st.collected_info o.extraction).2 = false := by
  refine ⟨?_, ?_, ?_, ?_⟩ <;>
    simp [send_message, extractionPhase, extract_information, h]

/-- Extraction used in the C1 counterexample: a confident university payload
aimed at u2 while the next missing field is u1. -/
def c1ex : InformationUpdate :=
  { new_university := some "Berkeley", new_course := none,
    field_to_update := some "u2", confidence := mkRat 9 10 }

/-- Turn oracle delivering the C1 counterexample extraction. -/
def c1Oracle : TurnOracle :=
  { extraction := .ok c1ex, responder := .ok "r", dist := fun _ _ => 1 }

/-- Claim C1 counterexample: on an empty session the next missing field is u1,
yet `send_message` applies a confident extraction whose `field_to_update` is
u2 — the code never compares `field_to_update` with the next missing field,
so a field id other than nextMissing does NOT leave the fields unchanged. -/
theorem c1_counterexample :
    nextFieldKey emptyState.collected_info = some "u1" ∧
    mkRat 1 2 < c1ex.confidence ∧
    c1ex.field_to_update = some "u2" ∧
    (send_message emptyState [] c1Oracle "go" 3).state.collected_info.u2 =
      some "Berkeley" ∧
    (send_message emptyState [] c1Oracle "go" 3).state.collected_info ≠
      emptyState.collected_info := by
  exact ⟨by decide, by decide, by decide, by decide, by decide⟩

/-- Claim C1 (amended): the update step of `send_message` applies an
extraction iff confidence exceeds 0.5, `field_to_update` names a field, and a
type-matching non-empty payload is present; the named field — not necessarily
the next missing one — receives the payload and every other field is
unchanged.  Low confidence, an absent field id, or absent payloads leave the
fields unchanged; no comparison with the next missing field is performed. -/
theorem c1_amended (i : CollectedInfo) (e : InformationUpdate) :
    (e.confidence ≤ mkRat 1 2 → applyUpdate i e = i) ∧
    (e.field_to_update = none → applyUpdate i e = i) ∧
    (e.new_university = none ∧ e.new_course = none → applyUpdate i e = i) ∧
    (∀ g, e.field_to_update ≠ some g →
      getField (applyUpdate i e) g = getField i g) ∧
    (∀ f, e.field_to_update = some f → mkRat 1 2 < e.confidence →
      truthy e.new_university = true → (f = "u1" ∨ f = "u2") →
      getField (applyUpdate i e) f = e.new_university) ∧
    (∀ f, e.field_to_update = some f → mkRat 1 2 < e.confidence →
      truthy e.new_course = true → (f = "c1" ∨ f = "c2") →
      getField (applyUpdate i e) f = e.new_course) ∧
    (∀ st store o m now, o.extraction = Except.ok e →
      st.collected_info.is_complete = false →
      (send_message st store o m now).state.collected_info =
        applyUpdate st.collected_info e) := by
  refine ⟨?_, ?_, ?_, ?_, ?_, ?_, ?_⟩
  · intro hle
    unfold applyUpdate
    rw [if_neg]
    rintro ⟨hlt, -⟩
    exact absurd hlt (not_lt.mpr hle)
  · intro hnone
    unfold applyUpdate
    rw [if_neg]
    rintro ⟨-, htr⟩
    rw [hnone] at htr
    simp [truthy] at htr
  · rintro ⟨hu, hc⟩
    simp only [applyUpdate]
    split_ifs with h1 h2 h3
    · rw [hu] at h2
      simp [truthy] at h2
    · rw [hc] at h3
      simp [truthy] at h3
    · rfl
    · rfl
  · intro g hg
    simp only [applyUpdate]
    cases hft : e.field_to_update with
    | none =>
      rw [if_neg]
      rintro ⟨-, htr⟩
      simp [truthy] at htr
    | some f0 =>
      have hgf : g ≠ f0 := fun hgf => hg (hgf ▸ hft)
      split_ifs <;> first
        | rfl
        | exact getField_setField_ne i _ _ g (by simpa using hgf)
  · intro f hf hconf hu hforu
    have hset : getField (applyUpdate i e) f =
        some (e.new_university.getD "") := by
      rcases hforu with h | h <;> subst h <;>
        (simp only [applyUpdate, hf, Option.getD_some]
         rw [if_pos ⟨hconf, by decide⟩, if_pos ⟨hu, by decide⟩,
           getField_setField_self i _ _ (by decide)])
    rw [hset]
    cases hx : e.new_university with
    | none => rw [hx] at hu; simp [truthy] at hu
    | some s => simp [hx]
  · intro f hf hconf hc hforc
    have hset : getField (applyUpdate i e) f =
        some (e.new_course.getD "") := by
      rcases hforc with h | h <;> subst h <;>
        (simp only [applyUpdate, hf, Option.getD_some]
         rw [if_pos ⟨hconf, by decide⟩,
           if_neg (fun hcon => absurd hcon.2 (by decide)),
           if_pos ⟨hc, by decide⟩,
           getField_setField_self i _ _ (by decide)])
    rw [hset]
    cases hx : e.new_course with
    | none => rw [hx] at hc; simp [truthy] at hc
    | some s => simp [hx]
  · intro st store o m now he hcomp
    simp only [send_message, extractionPhase]
    rw [if_neg (by simp [hcomp]), he,
      extract_information_ok st.collected_info e hcomp]

/-- Witness for the amended C1 at concrete inputs: a borderline confidence of
exactly 0.5 is rejected, and a field other than the targeted one is
untouched. -/
theorem c1_amended_witness :
    applyUpdate emptyInfo { confidence := mkRat 1 2 } = emptyInfo ∧
    getField (applyUpdate emptyInfo c1ex) "c1" = getField emptyInfo "c1" :=
  ⟨(c1_amended emptyInfo { confidence := mkRat 1 2 }).1 le_rfl,
    ((c1_amended emptyInfo c1ex).2.2.2.1) "c1" (by decide)⟩

/-- Witness for C2 at a concrete complete session. -/
theorem c2_complete_frame_witness :
    demoState.collected_info.is_complete = true ∧
    (send_message demoState [] demoOracle "msg" 1).state.collected_info =
      demoState.collected_info ∧
    (send_message demoState [] demoOracle "msg" 1).extractorCalled = false :=
  ⟨by decide,
    (c2_complete_frame demoState [] demoOracle "msg" 1 (by decide)).1,
    (c2_complete_frame demoState [] demoOracle "msg" 1 (by decide)).2.1⟩

/-- Claim C3 counterexample: a message processed on an ALREADY complete
session writes the completion record again (lines 274-276 run `save_info` on
every message while complete, not only on the transition), and a further
message writes yet again with a different save timestamp, so re-runs are not
identical in content. -/
theorem c3_counterexample :
    demoState.collected_info.is_complete = true ∧
    (send_message demoState [] demoOracle "again" 5).writes =
      [⟨"chat-1", 0, 5, fullInfo⟩] ∧
    (send_message (send_message demoState [] demoOracle "again" 5).state
        (send_message demoState [] demoOracle "again" 5).store
        demoOracle "more" 6).writes =
      [⟨"chat-1", 0, 6, fullInfo⟩] :=
  ⟨by decide, by decide, by decide⟩

/-- Claim C3 (amended): `send_message` writes the completion record on every
call whose resulting field state is complete — not exactly once on the
transition into COMPLETE.  Each write targets the single per-session file
(keyed by the chat id), carries the current field values and creation time,
and stamps the save time `now`, so successive re-saves overwrite the same
record with identical field values but a fresh timestamp. -/
theorem c3_amended (st : ChatState) (store : List ExchangeRecord)
    (o : TurnOracle) (m : String) (now : Nat) :
    ((send_message st store o m now).writes ≠ [] ↔
      (send_message st store o m now).result.is_complete = true) ∧
    (∀ w ∈ (send_message st store o m now).writes,
      w.chat_id = st.chat_id ∧ w.created_at = st.created_at ∧
      w.timestamp = now ∧
      w.collected_info =
        (send_message st store o m now).state.collected_info) := by
  constructor
  · simp only [send_message]
    split <;> simp_all
  · intro w hw
    simp only [send_message] at hw ⊢
    split at hw <;> simp_all [save_info]

/-- Witness for the amended C3 at a concrete complete session. -/
theorem c3_amended_witness :
    ((send_message demoState [] demoOracle "again" 5).writes ≠ [] ↔
      (send_message demoState [] demoOracle "again" 5).result.is_complete =
        true) ∧
    ((⟨"chat-1", 0, 5, fullInfo⟩ : SavedRecord).chat_id = demoState.chat_id ∧
      (⟨"chat-1", 0, 5, fullInfo⟩ : SavedRecord).created_at =
        demoState.created_at ∧
      (⟨"chat-1", 0, 5, fullInfo⟩ : SavedRecord).timestamp = 5 ∧
      (⟨"chat-1", 0, 5, fullInfo⟩ : SavedRecord).collected_info =
        (send_message demoState [] demoOracle "again" 5).state.collected_info) :=
  ⟨(c3_amended demoState [] demoOracle "again" 5).1,
    (c3_amended demoState [] demoOracle "again" 5).2
      ⟨"chat-1", 0, 5, fullInfo⟩ (by decide)⟩

/-- Claim C4: `get_next_field` returns the label of the first field in the
fixed order u1, c1, u2, c2 whose value is unset or empty, and returns `None`
exactly when `is_complete`; `is_complete` holds iff every one of the four
fields is truthy (set and non-empty); and under `send_message` a truthy field
stays truthy, so completion is monotonic. -/
theorem c4_next_field_order_monotone (i : CollectedInfo) :
    (i.get_next_field = none ↔ i.is_complete = true) ∧
    (i.get_next_field = some "First university name" ↔
      truthy i.u1 = false) ∧
    (i.get_next_field = some "First university course" ↔
      truthy i.u1 = true ∧ truthy i.c1 = false) ∧
    (i.get_next_field = some "Second university name" ↔
      truthy i.u1 = true ∧ truthy i.c1 = true ∧ truthy i.u2 = false) ∧
    (i.get_next_field = some "Second university course" ↔
      truthy i.u1 = true ∧ truthy i.c1 = true ∧ truthy i.u2 = true ∧
        truthy i.c2 = false) ∧
    (i.is_complete = true ↔ truthy i.u1 = true ∧ truthy i.c1 = true ∧
      truthy i.u2 = true ∧ truthy i.c2 = true) ∧
    (∀ st store o m now f, truthy (getField st.collected_info f) = true →
      truthy (getField
        (send_message st store o m now).state.collected_info f) = true) ∧
    (∀ st store o m now, st.collected_info.is_complete = true →
      (send_message st store o m now).state.collected_info.is_complete =
        true) := by
  refine ⟨?_, ?_, ?_, ?_, ?_, ?_,
    fun st store o m now f h => truthy_getField_send_message st store o m now f h,
    ?_⟩
  · obtain ⟨u1, c1, u2, c2⟩ := i
    cases h1 : truthy u1 <;> cases h2 : truthy c1 <;> cases h3 : truthy u2 <;>
      cases h4 : truthy c2 <;>
      simp [CollectedInfo.get_next_field, CollectedInfo.is_complete,
        h1, h2, h3, h4]
  · obtain ⟨u1, c1, u2, c2⟩ := i
    cases h1 : truthy u1 <;> cases h2 : truthy c1 <;> cases h3 : truthy u2 <;>
      cases h4 : truthy c2 <;>
      simp [CollectedInfo.get_next_field, h1, h2, h3, h4]
  · obtain ⟨u1, c1, u2, c2⟩ := i
    cases h1 : truthy u1 <;> cases h2 : truthy c1 <;> cases h3 : truthy u2 <;>
      cases h4 : truthy c2 <;>
      simp [CollectedInfo.get_next_field, h1, h2, h3, h4]
  · obtain ⟨u1, c1, u2, c2⟩ := i
    cases h1 : truthy u1 <;> cases h2 : truthy c1 <;> cases h3 : truthy u2 <;>
      cases h4 : truthy c2 <;>
      simp [CollectedInfo.get_next_field, h1, h2, h3, h4]
  · obtain ⟨u1, c1, u2, c2⟩ := i
    cases h1 : truthy u1 <;> cases h2 : truthy c1 <;> cases h3 : truthy u2 <;>
      cases h4 : truthy c2 <;>
      simp [CollectedInfo.get_next_field, h1, h2, h3, h4]
  · obtain ⟨u1, c1, u2, c2⟩ := i
    simp [CollectedInfo.is_complete]
    tauto
  · intro st store o m now h
    have h' := h
    unfold CollectedInfo.is_complete at h' ⊢
    simp only [Bool.and_eq_true] at h' ⊢
    obtain ⟨⟨⟨h1, h2⟩, h3⟩, h4⟩ := h'
    exact ⟨⟨⟨truthy_getField_send_message st store o m now "u1" h1,
      truthy_getField_send_message st store o m now "c1" h2⟩,
      truthy_getField_send_message st store o m now "u2" h3⟩,
      truthy_getField_send_message st store o m now "c2" h4⟩

/-- Witness for C4 at concrete inputs: the no-unset property and the
monotonicity property applied to a concrete complete session. -/
theorem c4_next_field_order_monotone_witness :
    truthy (getField demoState.collected_info "u1") = true ∧
    truthy (getField
      (send_message demoState [] demoOracle "m" 0).state.collected_info
      "u1") = true ∧
    (send_message demoState [] demoOracle "m" 0).state.collected_info.is_complete =
      true :=
  ⟨by decide,
    (c4_next_field_order_monotone emptyInfo).2.2.2.2.2.2.1
      demoState [] demoOracle "m" 0 "u1" (by decide),
    (c4_next_field_order_monotone emptyInfo).2.2.2.2.2.2.2
      demoState [] demoOracle "m" 0 (by decide)⟩

/-- Extraction oracle used in the C6 counterexample: confident, targeted at
u1, but with neither a university nor a course payload. -/
def noneOracle : TurnOracle :=
  { extraction := .ok { field_to_update := some "u1", confidence := mkRat 9 10 },
    responder := .ok "resp", dist := fun _ _ => 1 }

/-- Claim C6 counterexample: when extraction yields no usable payload on an
incomplete session, the transcript receives the raw user text, but the
exchange record persisted to the vector store receives the synthetic
invalid-input marker instead of the raw text — the persisted record is NOT
verbatim. -/
theorem c6_counterexample :
    emptyState.collected_info.is_complete = false ∧
    (send_message emptyState [] noneOracle "gibberish" 7).state.chat_history =
      [("user", "gibberish"), ("assistant", "resp")] ∧
    (send_message emptyState [] noneOracle "gibberish" 7).store =
      [⟨"chat-2", invalidMarker, "resp", 7⟩] ∧
    invalidMarker ≠ "gibberish" :=
  ⟨by decide, by decide, by decide, by decide⟩

/-- Claim C6 (amended): when extraction yields no usable value (both payloads
`None`) on an incomplete session, the invalid-input marker replaces the user
message for everything downstream — response generation, cache lookup, and
the exchange record persisted to the vector store — while the raw user text
is recorded verbatim only in the in-memory transcript. -/
theorem c6_amended (st : ChatState) (store : List ExchangeRecord)
    (o : TurnOracle) (m : String) (now : Nat) (u : InformationUpdate)
    (hc : st.collected_info.is_complete = false)
    (he : o.extraction = .ok u)
    (hu : u.new_university = none) (hcr : u.new_course = none) :
    (send_message st store o m now).store =
      store ++ [⟨st.chat_id, invalidMarker,
        (send_message st store o m now).result.response, now⟩] ∧
    (send_message st store o m now).state.chat_history =
      add_to_history (add_to_history st.chat_history "user" m) "assistant"
        (send_message st store o m now).result.response := by
  constructor <;>
    simp [send_message, extractionPhase, add_conversation, hc, he, hu, hcr,
      extract_information_ok st.collected_info u hc]

/-- Witness for the amended C6 at a concrete session and oracle. -/
theorem c6_amended_witness :
    (send_message emptyState [] noneOracle "gibberish" 7).store =
      [] ++ [⟨emptyState.chat_id, invalidMarker,
        (send_message emptyState [] noneOracle "gibberish" 7).result.response,
        7⟩] :=
  (c6_amended emptyState [] noneOracle "gibberish" 7
    { field_to_update := some "u1", confidence := mkRat 9 10 }
    (by decide) rfl rfl rfl).1

/-- Claim C7: an extraction failure degrades to a confidence-0 result, never
propagates, and leaves the fields unchanged; the turn proceeds to response
generation, and a failing responder call yields the degraded
having-trouble-responding reply (on a cache miss) instead of aborting. -/
theorem c7_error_degrades (st : ChatState) (store : List ExchangeRecord)
    (ee re : String) (dist : String → String → ℚ) (m : String) (now : Nat) :
    (extract_information st.collected_info (.error ee)).1.confidence = 0 ∧
    (send_message st store ⟨.error ee, .error re, dist⟩ m now).state.collected_info =
      st.collected_info ∧
    ((∀ q, search_similar dist store st.chat_id q 1 = []) →
      (send_message st store ⟨.error ee, .error re, dist⟩ m now).result.response =
        degradedPrefix ++ re ∧
      (send_message st store ⟨.error ee, .error re, dist⟩ m now).result.is_cached =
        false) := by
  refine ⟨?_, ?_, ?_⟩
  · unfold extract_information
    split
    · rfl
    · cases hnf : nextFieldKey st.collected_info <;> simp [hnf]
  · simp only [send_message, extractionPhase]
    by_cases hc : st.collected_info.is_complete = true
    · simp [hc]
    · simp only [hc]
      simp [extract_information, hc,
        applyUpdate_confidence_zero st.collected_info]
      split <;> simp [applyUpdate_confidence_zero]
  · intro hq
    simp [send_message, responseAndCached, get_response_message, hq]

/-- Witness for C7 at a concrete session with both external calls failing. -/
theorem c7_error_degrades_witness :
    (send_message emptyState []
        ⟨.error "boom", .error "net", fun _ _ => 1⟩ "hi" 0).result.response =
      degradedPrefix ++ "net" ∧
    (send_message emptyState []
        ⟨.error "boom", .error "net", fun _ _ => 1⟩ "hi" 0).result.is_cached =
      false :=
  (c7_error_degrades emptyState [] "boom" "net" (fun _ _ => 1) "hi" 0).2.2
    (fun _ => rfl)

/-- A concrete persisted-file store used in the C8 witness. -/
def demoFiles : FileStore :=
  fun cid => if cid = "chat-1" then some ⟨"chat-1", 0, 9, fullInfo⟩ else none

/-- Claim C8: resolving a session id that is not in the active map never
fails: `get_or_create_chat` reloads the persisted field values when a saved
record exists and otherwise initializes fresh empty fields; and after
`close_all_chats` (which empties the active map) any read resolves the same
way against the file store — no session-not-found error path exists. -/
theorem c8_session_resolution (active : List (String × ChatState))
    (files : FileStore) (chat_id : String) (now : Nat)
    (h : active.lookup chat_id = none) :
    (get_or_create_chat active files chat_id now).1.chat_id = chat_id ∧
    (get_or_create_chat active files chat_id now).1.collected_info =
      ((files chat_id).map SavedRecord.collected_info).getD emptyInfo ∧
    (close_all_chats active files now).2 = [] ∧
    (∀ fs : FileStore, ∀ cid,
      (get_or_create_chat (close_all_chats active files now).2 fs
          cid now).1.collected_info =
        ((fs cid).map SavedRecord.collected_info).getD emptyInfo) := by
  refine ⟨?_, ?_, rfl, ?_⟩
  · cases hf : files chat_id <;>
      simp [get_or_create_chat, h, load_chat_session, hf]
  · cases hf : files chat_id <;>
      simp [get_or_create_chat, h, load_chat_session, hf, emptyInfo]
  · intro fs cid
    have hl : (close_all_chats active files now).2 = [] := rfl
    rw [hl]
    cases hf : fs cid <;>
      simp [get_or_create_chat, load_chat_session, hf, emptyInfo,
        List.lookup]

/-- Witness for C8: a session id absent from the (empty) active map resolves
to the persisted record when one exists and to fresh empty fields when none
does. -/
theorem c8_session_resolution_witness :
    (get_or_create_chat [] demoFiles "chat-1" 3).1.collected_info =
      ((demoFiles "chat-1").map SavedRecord.collected_info).getD emptyInfo ∧
    (get_or_create_chat [] demoFiles "missing" 3).1.collected_info =
      ((demoFiles "missing").map SavedRecord.collected_info).getD emptyInfo :=
  ⟨(c8_session_resolution [] demoFiles "chat-1" 3 rfl).2.1,
    (c8_session_resolution [] demoFiles "missing" 3 rfl).2.1⟩

end PPM
